import Mathlib

/-!
Shallow embedding of the gdrcopy Python bindings
(src/python/build/lib/gdrcopy/gdrcopy.py).

The module wraps an external native driver (`_lib`, the gdrapi shared
library).  We model the driver as a record of pure functions (`Driver`):
each embedded method threads the explicit object state, returns an
`Except PyErr` result mirroring Python's raise/return, and additionally
returns the list of driver calls it performed, so that "performs no
driver operation" style properties are expressible.

Conventions of the embedding:
* `GDRCopy._handle` is a `gdr_t` pointer cdata or Python `None`; we model
  it as `Option Nat` where `none` is Python `None` and `some 0` is a NULL
  pointer.  Python truthiness of this field is `ptrTruthy` (cffi: a
  pointer cdata is falsy iff NULL).
* `GDRHandle._handle` is a `gdr_mh_t` struct cdata or `None`; a struct
  cdata is truthy, so truthiness is `Option.isSome`.
* `GDRHandle._mapped_ptr` is a `void *` cdata or `None`; truthiness is
  `ptrTruthy`.
* Return codes of the native calls are C `int`, modelled as `Int`;
  addresses, sizes and tokens are modelled as `Nat`.
* `raise` is `Except.error`; the two exception classes that appear in the
  source (`RuntimeError`, `GDRError`) are the constructors of `PyErr`.
-/

/-- The `gdr_info_v2_t` struct returned by `gdr_get_info_v2` (the two
one-bit bitfields are modelled as `Bool`). -/
structure GdrInfoV2 where
  va : Nat
  mapped_size : Nat
  page_size : Nat
  tm_cycles : Nat
  cycles_per_ms : Nat
  mapped : Bool
  wc_mapping : Bool
  mapping_type : Nat
deriving Repr, DecidableEq

/-- The Python dict built by `GDRHandle.get_info` (the six keys copied out
of `gdr_info_v2_t`). -/
structure InfoDict where
  va : Nat
  mapped_size : Nat
  page_size : Nat
  mapped : Bool
  wc_mapping : Bool
  mapping_type : Nat
deriving Repr, DecidableEq

/-- Exceptions raised by the module: `RuntimeError(msg)` for state-machine
violations, `GDRError(code, message)` for failed driver calls. -/
inductive PyErr where
  | RuntimeError (msg : String)
  | GDRError (code : Int) (msg : String)
deriving Repr, DecidableEq

/-- One invocation of a native `_lib` function, with the arguments the
Python code passes (`Option` where the Python value may be `None`). -/
inductive DriverCall where
  | openCtx
  | closeCtx (g : Option Nat)
  | pinBuffer (g : Option Nat) (addr size p2p_token va_space : Nat)
  | pinBufferV2 (g : Option Nat) (addr size flags : Nat)
  | unpinBuffer (g : Option Nat) (h : Option Nat)
  | getInfoV2 (g : Option Nat) (h : Option Nat)
  | mapBuf (g : Option Nat) (h : Option Nat) (size : Nat)
  | unmapBuf (g : Option Nat) (h : Option Nat) (va size : Nat)
  | copyTo (h : Option Nat) (map_d_ptr h_ptr size : Nat)
  | copyFrom (h : Option Nat) (h_ptr map_d_ptr size : Nat)
  | driverGetVersion (g : Option Nat)
  | getAttr (g : Option Nat) (attr : Nat)
deriving Repr, DecidableEq

/-- The native library `_lib`, treated as a black box: a record of pure
functions giving each call's return code and out-parameter values. -/
structure Driver where
  gdr_open : Nat
  gdr_close : Option Nat → Int
  gdr_pin_buffer : Option Nat → Nat → Nat → Nat → Nat → Int × Nat
  gdr_pin_buffer_v2 : Option Nat → Nat → Nat → Nat → Int × Nat
  gdr_unpin_buffer : Option Nat → Option Nat → Int
  gdr_get_info_v2 : Option Nat → Option Nat → Int × GdrInfoV2
  gdr_map : Option Nat → Option Nat → Nat → Int × Nat
  gdr_unmap : Option Nat → Option Nat → Nat → Nat → Int
  gdr_copy_to_mapping : Option Nat → Nat → Nat → Nat → Int
  gdr_copy_from_mapping : Option Nat → Nat → Nat → Nat → Int
  gdr_driver_get_version : Option Nat → Int × Int × Int
  gdr_get_attribute : Option Nat → Nat → Int × Int

/-- Python truthiness of a value that is either `None` or a cffi pointer
cdata: `None` and NULL are falsy, any other pointer is truthy. -/
def ptrTruthy : Option Nat → Bool
  | none => false
  | some v => v != 0

/-- `_check_error(ret, msg)`: raise `GDRError(ret, f"{msg} (error code: {ret})")`
when `ret != 0`. -/
def check_error (ret : Int) (msg : String) : Except PyErr Unit :=
  if ret != 0 then
    .error (.GDRError ret (msg ++ " (error code: " ++ toString ret ++ ")"))
  else .ok ()

/-- State of a `GDRCopy` instance: the `_handle` field. -/
structure GDRCopyState where
  handle : Option Nat
deriving Repr, DecidableEq

/-- State of a `GDRHandle` instance: `_handle` (pin token), `_mapped_ptr`,
`_mapped_size` and the `_info` cache. -/
structure GDRHandleState where
  handle : Option Nat
  mapped_ptr : Option Nat
  mapped_size : Nat
  info : Option InfoDict
deriving Repr, DecidableEq

/-- `GDRHandle.__init__`: store the pin token, no mapping, empty cache. -/
def GDRHandle.init (tok : Nat) : GDRHandleState :=
  { handle := some tok, mapped_ptr := none, mapped_size := 0, info := none }

/-- `GDRHandle.unpin`: no-op unless `_handle` is truthy; otherwise calls
`gdr_unpin_buffer`, clears `_handle`, then checks the return code. -/
def GDRHandle.unpin (drv : Driver) (gdr : GDRCopyState) (h : GDRHandleState) :
    Except PyErr Unit × GDRHandleState × List DriverCall :=
  match h.handle with
  | some tok =>
      let ret := drv.gdr_unpin_buffer gdr.handle (some tok)
      (check_error ret "Failed to unpin buffer",
       { h with handle := none },
       [.unpinBuffer gdr.handle (some tok)])
  | none => (.ok (), h, [])

/-- `GDRHandle.get_info`: returns the cached `_info` dict if present;
otherwise calls `gdr_get_info_v2`, builds the dict, caches it. -/
def GDRHandle.get_info (drv : Driver) (gdr : GDRCopyState) (h : GDRHandleState) :
    Except PyErr InfoDict × GDRHandleState × List DriverCall :=
  match h.info with
  | some d => (.ok d, h, [])
  | none =>
      let (ret, info) := drv.gdr_get_info_v2 gdr.handle h.handle
      if ret != 0 then
        (.error (.GDRError ret ("Failed to get info (error code: " ++ toString ret ++ ")")),
         h, [.getInfoV2 gdr.handle h.handle])
      else
        let d : InfoDict :=
          { va := info.va, mapped_size := info.mapped_size,
            page_size := info.page_size, mapped := info.mapped,
            wc_mapping := info.wc_mapping, mapping_type := info.mapping_type }
        (.ok d, { h with info := some d }, [.getInfoV2 gdr.handle h.handle])

/-- `GDRHandle.map(size)`: raises `RuntimeError("Buffer is already mapped")`
if `_mapped_ptr` is truthy; otherwise calls `gdr_map`, checks the return
code, records `_mapped_ptr`/`_mapped_size`, returns the address. -/
def GDRHandle.map (drv : Driver) (gdr : GDRCopyState) (h : GDRHandleState)
    (size : Nat) : Except PyErr Nat × GDRHandleState × List DriverCall :=
  if ptrTruthy h.mapped_ptr then
    (.error (.RuntimeError "Buffer is already mapped"), h, [])
  else
    let (ret, va) := drv.gdr_map gdr.handle h.handle size
    if ret != 0 then
      (.error (.GDRError ret ("Failed to map buffer (error code: " ++ toString ret ++ ")")),
       h, [.mapBuf gdr.handle h.handle size])
    else
      (.ok va, { h with mapped_ptr := some va, mapped_size := size },
       [.mapBuf gdr.handle h.handle size])

/-- `GDRHandle.unmap`: no-op unless `_mapped_ptr` is truthy; otherwise
calls `gdr_unmap`, clears the mapping record, then checks the return
code (so the record is cleared even when the driver call failed). -/
def GDRHandle.unmap (drv : Driver) (gdr : GDRCopyState) (h : GDRHandleState) :
    Except PyErr Unit × GDRHandleState × List DriverCall :=
  if ptrTruthy h.mapped_ptr then
    let va := h.mapped_ptr.getD 0
    let ret := drv.gdr_unmap gdr.handle h.handle va h.mapped_size
    (check_error ret "Failed to unmap buffer",
     { h with mapped_ptr := none, mapped_size := 0 },
     [.unmapBuf gdr.handle h.handle va h.mapped_size])
  else (.ok (), h, [])

/-- `GDRHandle.copy_to_mapping(host_ptr, size)`: raises
`RuntimeError("Buffer is not mapped")` if `_mapped_ptr` is falsy;
otherwise calls `gdr_copy_to_mapping` and checks the return code.
No state is mutated. -/
def GDRHandle.copy_to_mapping (drv : Driver) (h : GDRHandleState)
    (host_ptr size : Nat) : Except PyErr Unit × List DriverCall :=
  if !ptrTruthy h.mapped_ptr then
    (.error (.RuntimeError "Buffer is not mapped"), [])
  else
    let d := h.mapped_ptr.getD 0
    let ret := drv.gdr_copy_to_mapping h.handle d host_ptr size
    (check_error ret "Failed to copy to mapping", [.copyTo h.handle d host_ptr size])

/-- `GDRHandle.copy_from_mapping(host_ptr, size)`: raises
`RuntimeError("Buffer is not mapped")` if `_mapped_ptr` is falsy;
otherwise calls `gdr_copy_from_mapping` and checks the return code. -/
def GDRHandle.copy_from_mapping (drv : Driver) (h : GDRHandleState)
    (host_ptr size : Nat) : Except PyErr Unit × List DriverCall :=
  if !ptrTruthy h.mapped_ptr then
    (.error (.RuntimeError "Buffer is not mapped"), [])
  else
    let d := h.mapped_ptr.getD 0
    let ret := drv.gdr_copy_from_mapping h.handle host_ptr d size
    (check_error ret "Failed to copy from mapping", [.copyFrom h.handle host_ptr d size])

/-- `GDRHandle.__del__`: `self.unmap(); self.unpin()` — the body has no
exception handler, so an exception raised by `unmap` aborts the body
before `unpin` runs. -/
def GDRHandle.del_ (drv : Driver) (gdr : GDRCopyState) (h : GDRHandleState) :
    Except PyErr Unit × GDRHandleState × List DriverCall :=
  match GDRHandle.unmap drv gdr h with
  | (.error e, h1, c1) => (.error e, h1, c1)
  | (.ok _, h1, c1) =>
      let (r2, h2, c2) := GDRHandle.unpin drv gdr h1
      (r2, h2, c1 ++ c2)

/-- `GDRCopy.__init__`: `_handle = None`. -/
def GDRCopy.init : GDRCopyState := { handle := none }

/-- `GDRCopy.open`: raises `RuntimeError("GDRCopy is already open")` if
`_handle` is truthy; otherwise stores the result of `gdr_open` and raises
`GDRError(-1, ...)` if it is NULL. -/
def GDRCopy.open_ (drv : Driver) (s : GDRCopyState) :
    Except PyErr Unit × GDRCopyState × List DriverCall :=
  if ptrTruthy s.handle then
    (.error (.RuntimeError "GDRCopy is already open"), s, [])
  else
    let p := drv.gdr_open
    let s' : GDRCopyState := { handle := some p }
    if p = 0 then
      (.error (.GDRError (-1) "Failed to open GDRCopy"), s', [.openCtx])
    else (.ok (), s', [.openCtx])

/-- `GDRCopy.close`: no-op unless `_handle` is truthy; otherwise calls
`gdr_close`, clears `_handle`, then checks the return code (so the
context is considered closed even when the driver call failed). -/
def GDRCopy.close (drv : Driver) (s : GDRCopyState) :
    Except PyErr Unit × GDRCopyState × List DriverCall :=
  if ptrTruthy s.handle then
    let ret := drv.gdr_close s.handle
    (check_error ret "Failed to close GDRCopy",
     { handle := none }, [.closeCtx s.handle])
  else (.ok (), s, [])

/-- `GDRCopy.__del__`: `self.close()` (no exception handler). -/
def GDRCopy.del_ (drv : Driver) (s : GDRCopyState) :
    Except PyErr Unit × GDRCopyState × List DriverCall :=
  GDRCopy.close drv s

/-- `GDRCopy.pin_buffer(addr, size, p2p_token, va_space)`: raises
`RuntimeError("GDRCopy is not open")` if `_handle` is falsy; otherwise
calls `gdr_pin_buffer`, checks the return code and wraps the token in a
new `GDRHandle`. -/
def GDRCopy.pin_buffer (drv : Driver) (s : GDRCopyState)
    (addr size p2p_token va_space : Nat) :
    Except PyErr GDRHandleState × List DriverCall :=
  if !ptrTruthy s.handle then
    (.error (.RuntimeError "GDRCopy is not open"), [])
  else
    let (ret, tok) := drv.gdr_pin_buffer s.handle addr size p2p_token va_space
    if ret != 0 then
      (.error (.GDRError ret ("Failed to pin buffer (error code: " ++ toString ret ++ ")")),
       [.pinBuffer s.handle addr size p2p_token va_space])
    else
      (.ok (GDRHandle.init tok), [.pinBuffer s.handle addr size p2p_token va_space])

/-- `GDRCopy.pin_buffer_v2(addr, size, flags)`: same gate, flags-based
driver call. -/
def GDRCopy.pin_buffer_v2 (drv : Driver) (s : GDRCopyState)
    (addr size flags : Nat) :
    Except PyErr GDRHandleState × List DriverCall :=
  if !ptrTruthy s.handle then
    (.error (.RuntimeError "GDRCopy is not open"), [])
  else
    let (ret, tok) := drv.gdr_pin_buffer_v2 s.handle addr size flags
    if ret != 0 then
      (.error (.GDRError ret ("Failed to pin buffer (v2) (error code: " ++ toString ret ++ ")")),
       [.pinBufferV2 s.handle addr size flags])
    else
      (.ok (GDRHandle.init tok), [.pinBufferV2 s.handle addr size flags])

/-- `GDRCopy.get_attribute(attr)`: raises `RuntimeError("GDRCopy is not open")`
if `_handle` is falsy; otherwise calls `gdr_get_attribute` and checks the
return code. -/
def GDRCopy.get_attribute (drv : Driver) (s : GDRCopyState) (attr : Nat) :
    Except PyErr Int × List DriverCall :=
  if !ptrTruthy s.handle then
    (.error (.RuntimeError "GDRCopy is not open"), [])
  else
    let (ret, v) := drv.gdr_get_attribute s.handle attr
    if ret != 0 then
      (.error (.GDRError ret ("Failed to get attribute " ++ toString attr
        ++ " (error code: " ++ toString ret ++ ")")),
       [.getAttr s.handle attr])
    else (.ok v, [.getAttr s.handle attr])

/-- Module-level `get_driver_version(gdr_handle)`: calls
`gdr_driver_get_version(gdr_handle._handle, ...)` unconditionally — there
is no open-context check in the source — then checks the return code. -/
def get_driver_version (drv : Driver) (s : GDRCopyState) :
    Except PyErr (Int × Int) × List DriverCall :=
  let (ret, major, minor) := drv.gdr_driver_get_version s.handle
  (match check_error ret "Failed to get driver version" with
   | .error e => .error e
   | .ok _ => .ok (major, minor),
   [.driverGetVersion s.handle])

/-- The error conditions of the spec's taxonomy, as the concrete
exceptions the source raises. -/
def AlreadyMappedError : PyErr := .RuntimeError "Buffer is already mapped"

/-- Copy attempted without a live mapping. -/
def NotMappedError : PyErr := .RuntimeError "Buffer is not mapped"

/-- Device context opened twice. -/
def AlreadyOpenError : PyErr := .RuntimeError "GDRCopy is already open"

/-- Device context used while closed. -/
def NotOpenError : PyErr := .RuntimeError "GDRCopy is not open"

/-- The spec's `DriverError(code)` condition: any `GDRError`. -/
def IsDriverError : PyErr → Prop := fun e => ∃ c m, e = .GDRError c m

/-- The `gdr_info_v2_t` a truthful driver reports for a pinned, not yet
mapped 4096-byte range at GPU address 0x1000. -/
def infoPreMap : GdrInfoV2 :=
  { va := 4096, mapped_size := 0, page_size := 65536, tm_cycles := 0,
    cycles_per_ms := 0, mapped := false, wc_mapping := false, mapping_type := 0 }

/-- A mock driver whose calls all succeed: context pointer 1, pin token 7,
map address 20480; the copy calls reject sizes larger than the 4096 bytes
mapped in the test scenarios. -/
def mockOk : Driver :=
  { gdr_open := 1
    gdr_close := fun _ => 0
    gdr_pin_buffer := fun _ _ _ _ _ => (0, 7)
    gdr_pin_buffer_v2 := fun _ _ _ _ => (0, 7)
    gdr_unpin_buffer := fun _ _ => 0
    gdr_get_info_v2 := fun _ _ => (0, infoPreMap)
    gdr_map := fun _ _ _ => (0, 20480)
    gdr_unmap := fun _ _ _ _ => 0
    gdr_copy_to_mapping := fun _ _ _ size => if 4096 < size then 1 else 0
    gdr_copy_from_mapping := fun _ _ _ size => if 4096 < size then 1 else 0
    gdr_driver_get_version := fun _ => (0, 2, 4)
    gdr_get_attribute := fun _ _ => (0, 1) }

/-- A mock driver whose calls all fail: `gdr_open` returns NULL, every
other call returns status 5. -/
def mockFail : Driver :=
  { gdr_open := 0
    gdr_close := fun _ => 5
    gdr_pin_buffer := fun _ _ _ _ _ => (5, 0)
    gdr_pin_buffer_v2 := fun _ _ _ _ => (5, 0)
    gdr_unpin_buffer := fun _ _ => 5
    gdr_get_info_v2 := fun _ _ => (5, infoPreMap)
    gdr_map := fun _ _ _ => (5, 0)
    gdr_unmap := fun _ _ _ _ => 5
    gdr_copy_to_mapping := fun _ _ _ _ => 5
    gdr_copy_from_mapping := fun _ _ _ _ => 5
    gdr_driver_get_version := fun _ => (5, 0, 0)
    gdr_get_attribute := fun _ _ => (5, 0) }

/-- `mockOk` except that `gdr_unmap` fails with status 3. -/
def mockUnmapFail : Driver := { mockOk with gdr_unmap := fun _ _ _ _ => 3 }

/-- `mockOk` except that `gdr_unpin_buffer` fails with status 4. -/
def mockUnpinFail : Driver := { mockOk with gdr_unpin_buffer := fun _ _ => 4 }

/-- `mockOk` except that `gdr_map` fails with status 2. -/
def mockMapFail : Driver := { mockOk with gdr_map := fun _ _ _ => (2, 0) }

/-- An open device context holding driver pointer 1. -/
def ctxOpen : GDRCopyState := { handle := some 1 }

/-- A freshly pinned handle with token 7 (no mapping, empty info cache). -/
def hPinned : GDRHandleState := GDRHandle.init 7

/-- A pinned handle with a live 4096-byte mapping at host address 20480. -/
def hMapped : GDRHandleState :=
  { handle := some 7, mapped_ptr := some 20480, mapped_size := 4096, info := none }

/-- An unpinned handle (pin token cleared). -/
def hUnpinned : GDRHandleState :=
  { handle := none, mapped_ptr := none, mapped_size := 0, info := none }

/-- The info dict the scenario of C4 caches at the first `get_info`. -/
def c4Dict : InfoDict :=
  { va := 4096, mapped_size := 0, page_size := 65536, mapped := false,
    wc_mapping := false, mapping_type := 0 }

/-- Handle state after the scenario's first `get_info` (cache filled). -/
def c4AfterInfo : GDRHandleState :=
  { handle := some 7, mapped_ptr := none, mapped_size := 0, info := some c4Dict }

/-- Handle state after the scenario's `map(4096)`. -/
def c4AfterMap : GDRHandleState :=
  { c4AfterInfo with mapped_ptr := some 20480, mapped_size := 4096 }

/-- Handle state after the scenario's `unmap()`. -/
def c4AfterUnmap : GDRHandleState :=
  { c4AfterMap with mapped_ptr := none, mapped_size := 0 }

/-- C1: `map` on a handle with a live mapping fails with the
already-mapped condition (`RuntimeError("Buffer is already mapped")`), at
every retry (the state is a fixed point of retrying), performing no driver
call; on an unmapped handle whose driver `gdr_map` call succeeds with
address `va`, `map` records `{mapped_ptr := va, mapped_size := size}` and
returns `va`. -/
theorem map_strict_until_unmap (drv : Driver) (gdr : GDRCopyState)
    (h : GDRHandleState) (size : Nat) :
    (ptrTruthy h.mapped_ptr = true →
      ∀ n : Nat,
        GDRHandle.map drv gdr
          ((fun st => (GDRHandle.map drv gdr st size).2.1)^[n] h) size
          = (.error AlreadyMappedError, h, [])) ∧
    (∀ va : Nat, ptrTruthy h.mapped_ptr = false →
      drv.gdr_map gdr.handle h.handle size = (0, va) →
      GDRHandle.map drv gdr h size
        = (.ok va, { h with mapped_ptr := some va, mapped_size := size },
           [.mapBuf gdr.handle h.handle size])) := by
  constructor
  · intro hm n
    have hfix : (fun st => (GDRHandle.map drv gdr st size).2.1) h = h := by
      simp [GDRHandle.map, hm]
    rw [Function.iterate_fixed hfix]
    simp [GDRHandle.map, hm, AlreadyMappedError]
  · intro va hm hd
    simp [GDRHandle.map, hm, hd]

/-- Witness for C1 at the mock driver: three retries on a mapped handle
still fail with the already-mapped condition, and `map(4096)` on a fresh
pinned handle records the mapping and returns address 20480. -/
theorem map_strict_until_unmap_witness :
    GDRHandle.map mockOk ctxOpen
      ((fun st => (GDRHandle.map mockOk ctxOpen st 4096).2.1)^[3] hMapped) 4096
      = (.error AlreadyMappedError, hMapped, []) ∧
    GDRHandle.map mockOk ctxOpen hPinned 4096
      = (.ok 20480,
         { hPinned with mapped_ptr := some 20480, mapped_size := 4096 },
         [.mapBuf ctxOpen.handle hPinned.handle 4096]) :=
  ⟨(map_strict_until_unmap mockOk ctxOpen hMapped 4096).1 (by decide) 3,
   (map_strict_until_unmap mockOk ctxOpen hPinned 4096).2 20480 (by decide) (by decide)⟩

/-- C2: `unmap` is a silent no-op on a handle without a live mapping
(never-mapped or second call in a row, with no driver call); on a mapped
handle whose driver `gdr_unmap` call fails, it raises `GDRError` but the
mapping record is cleared first, so the handle is unmapped afterward. -/
theorem unmap_idempotent_failsafe (drv : Driver) (gdr : GDRCopyState)
    (h : GDRHandleState) :
    (ptrTruthy h.mapped_ptr = false →
      GDRHandle.unmap drv gdr h = (.ok (), h, [])) ∧
    (GDRHandle.unmap drv gdr (GDRHandle.unmap drv gdr h).2.1
      = (.ok (), (GDRHandle.unmap drv gdr h).2.1, [])) ∧
    (∀ ret : Int, ptrTruthy h.mapped_ptr = true →
      drv.gdr_unmap gdr.handle h.handle (h.mapped_ptr.getD 0) h.mapped_size = ret →
      ret ≠ 0 →
      GDRHandle.unmap drv gdr h
        = (.error (.GDRError ret
             ("Failed to unmap buffer (error code: " ++ toString ret ++ ")")),
           { h with mapped_ptr := none, mapped_size := 0 },
           [.unmapBuf gdr.handle h.handle (h.mapped_ptr.getD 0) h.mapped_size])) := by
  refine ⟨fun hm => by simp [GDRHandle.unmap, hm], ?_, ?_⟩
  · cases hm : ptrTruthy h.mapped_ptr with
    | false => simp [GDRHandle.unmap, hm]
    | true =>
        have h1 : (GDRHandle.unmap drv gdr h).2.1
            = { h with mapped_ptr := none, mapped_size := 0 } := by
          simp [GDRHandle.unmap, hm]
        rw [h1]
        simp [GDRHandle.unmap, ptrTruthy]
  · intro ret hm hd hne
    simp [GDRHandle.unmap, hm, hd, check_error, hne]

/-- Witness for C2: never-raises on the never-mapped handle, on the second
of two calls, and the fail-safe clearing under a driver whose unmap call
fails with status 3. -/
theorem unmap_idempotent_failsafe_witness :
    GDRHandle.unmap mockUnmapFail ctxOpen hPinned = (.ok (), hPinned, []) ∧
    GDRHandle.unmap mockUnmapFail ctxOpen
        (GDRHandle.unmap mockUnmapFail ctxOpen hMapped).2.1
      = (.ok (), (GDRHandle.unmap mockUnmapFail ctxOpen hMapped).2.1, []) ∧
    GDRHandle.unmap mockUnmapFail ctxOpen hMapped
      = (.error (.GDRError 3 "Failed to unmap buffer (error code: 3)"),
         { hMapped with mapped_ptr := none, mapped_size := 0 },
         [.unmapBuf ctxOpen.handle hMapped.handle 20480 4096]) :=
  ⟨(unmap_idempotent_failsafe mockUnmapFail ctxOpen hPinned).1 (by decide),
   (unmap_idempotent_failsafe mockUnmapFail ctxOpen hMapped).2.1,
   (unmap_idempotent_failsafe mockUnmapFail ctxOpen hMapped).2.2 3
     (by decide) (by decide) (by decide)⟩

/-- C3: `unpin` is a silent no-op on an unpinned handle (second call in a
row performs no driver operation — empty call list); on a pinned handle
whose driver `gdr_unpin_buffer` call fails, it raises `GDRError` but the
pin token is cleared first, so the handle is invalidated afterward. -/
theorem unpin_idempotent_failsafe (drv : Driver) (gdr : GDRCopyState)
    (h : GDRHandleState) :
    (h.handle = none →
      GDRHandle.unpin drv gdr h = (.ok (), h, [])) ∧
    (GDRHandle.unpin drv gdr (GDRHandle.unpin drv gdr h).2.1
      = (.ok (), (GDRHandle.unpin drv gdr h).2.1, [])) ∧
    (∀ (tok : Nat) (ret : Int), h.handle = some tok →
      drv.gdr_unpin_buffer gdr.handle (some tok) = ret → ret ≠ 0 →
      GDRHandle.unpin drv gdr h
        = (.error (.GDRError ret
             ("Failed to unpin buffer (error code: " ++ toString ret ++ ")")),
           { h with handle := none },
           [.unpinBuffer gdr.handle (some tok)])) := by
  refine ⟨fun hh => by simp [GDRHandle.unpin, hh], ?_, ?_⟩
  · cases hh : h.handle with
    | none => simp [GDRHandle.unpin, hh]
    | some tok => simp [GDRHandle.unpin, hh]
  · intro tok ret hh hd hne
    simp [GDRHandle.unpin, hh, hd, check_error, hne]

/-- Witness for C3: no-op on the unpinned handle, silent no-op with no
driver call on the second of two calls, and the fail-safe token clearing
under a driver whose unpin call fails with status 4. -/
theorem unpin_idempotent_failsafe_witness :
    GDRHandle.unpin mockUnpinFail ctxOpen hUnpinned = (.ok (), hUnpinned, []) ∧
    GDRHandle.unpin mockUnpinFail ctxOpen
        (GDRHandle.unpin mockUnpinFail ctxOpen hPinned).2.1
      = (.ok (), (GDRHandle.unpin mockUnpinFail ctxOpen hPinned).2.1, []) ∧
    GDRHandle.unpin mockUnpinFail ctxOpen hPinned
      = (.error (.GDRError 4 "Failed to unpin buffer (error code: 4)"),
         { hPinned with handle := none },
         [.unpinBuffer ctxOpen.handle (some 7)]) :=
  ⟨(unpin_idempotent_failsafe mockUnpinFail ctxOpen hUnpinned).1 (by decide),
   (unpin_idempotent_failsafe mockUnpinFail ctxOpen hPinned).2.1,
   (unpin_idempotent_failsafe mockUnpinFail ctxOpen hPinned).2.2 7 4
     (by decide) (by decide) (by decide)⟩

/-- C4 (code behavior at the failing input): the full scenario — open,
pin 4096 bytes at 0x1000 with default flags, `get_info` (mapped=false),
`map(4096)` returning the non-zero address 20480, `get_info` again,
`unmap`, `unpin`, `close` — run against `mockOk`, a driver whose calls
all succeed, completes without error; but the second `get_info` performs
no driver call and returns the dict cached before `map`, whose `mapped`
field is still `false`. -/
theorem lifecycle_scenario_cached_info :
    GDRCopy.open_ mockOk GDRCopy.init = (.ok (), ctxOpen, [.openCtx]) ∧
    GDRCopy.pin_buffer_v2 mockOk ctxOpen 4096 4096 0
      = (.ok hPinned, [.pinBufferV2 (some 1) 4096 4096 0]) ∧
    GDRHandle.get_info mockOk ctxOpen hPinned
      = (.ok c4Dict, c4AfterInfo, [.getInfoV2 (some 1) (some 7)]) ∧
    c4Dict.mapped = false ∧
    GDRHandle.map mockOk ctxOpen c4AfterInfo 4096
      = (.ok 20480, c4AfterMap, [.mapBuf (some 1) (some 7) 4096]) ∧
    (20480 : Nat) ≠ 0 ∧
    GDRHandle.get_info mockOk ctxOpen c4AfterMap = (.ok c4Dict, c4AfterMap, []) ∧
    GDRHandle.unmap mockOk ctxOpen c4AfterMap
      = (.ok (), c4AfterUnmap, [.unmapBuf (some 1) (some 7) 20480 4096]) ∧
    GDRHandle.unpin mockOk ctxOpen c4AfterUnmap
      = (.ok (), { c4AfterUnmap with handle := none }, [.unpinBuffer (some 1) (some 7)]) ∧
    GDRCopy.close mockOk ctxOpen = (.ok (), GDRCopy.init, [.closeCtx (some 1)]) :=
  ⟨rfl, rfl, rfl, rfl, rfl, by decide, rfl, rfl, rfl, rfl⟩

/-- C5: `copy_to_mapping` and `copy_from_mapping` on a handle without a
live mapping fail with the not-mapped condition and perform no driver
call; on a mapped handle, when the driver rejects a copy whose size
exceeds the mapped size (non-zero status), the call surfaces it as
`GDRError` rather than succeeding. -/
theorem copy_requires_mapping (drv : Driver) (h : GDRHandleState)
    (src dst size : Nat) :
    (ptrTruthy h.mapped_ptr = false →
      GDRHandle.copy_to_mapping drv h src size = (.error NotMappedError, []) ∧
      GDRHandle.copy_from_mapping drv h dst size = (.error NotMappedError, [])) ∧
    (∀ (v : Nat) (ret : Int), h.mapped_ptr = some v → v ≠ 0 →
      h.mapped_size < size →
      drv.gdr_copy_to_mapping h.handle v src size = ret → ret ≠ 0 →
      GDRHandle.copy_to_mapping drv h src size
        = (.error (.GDRError ret
             ("Failed to copy to mapping (error code: " ++ toString ret ++ ")")),
           [.copyTo h.handle v src size])) ∧
    (∀ (v : Nat) (ret : Int), h.mapped_ptr = some v → v ≠ 0 →
      h.mapped_size < size →
      drv.gdr_copy_from_mapping h.handle dst v size = ret → ret ≠ 0 →
      GDRHandle.copy_from_mapping drv h dst size
        = (.error (.GDRError ret
             ("Failed to copy from mapping (error code: " ++ toString ret ++ ")")),
           [.copyFrom h.handle dst v size])) := by
  refine ⟨fun hm => ?_, ?_, ?_⟩
  · constructor
    · simp [GDRHandle.copy_to_mapping, hm, NotMappedError]
    · simp [GDRHandle.copy_from_mapping, hm, NotMappedError]
  · intro v ret hv hv0 _ hd hne
    simp [GDRHandle.copy_to_mapping, ptrTruthy, hv, hv0, hd, check_error, hne]
  · intro v ret hv hv0 _ hd hne
    simp [GDRHandle.copy_from_mapping, ptrTruthy, hv, hv0, hd, check_error, hne]

/-- Witness for C5: on the unmapped pinned handle both copies fail with
the not-mapped condition and an empty driver-call list; on the mapped
handle (4096 bytes mapped), an 8192-byte copy is rejected by `mockOk`
(status 1) and surfaces as `GDRError`. -/
theorem copy_requires_mapping_witness :
    (GDRHandle.copy_to_mapping mockOk hPinned 555 8192
        = (.error NotMappedError, []) ∧
     GDRHandle.copy_from_mapping mockOk hPinned 666 8192
        = (.error NotMappedError, [])) ∧
    GDRHandle.copy_to_mapping mockOk hMapped 555 8192
      = (.error (.GDRError 1 "Failed to copy to mapping (error code: 1)"),
         [.copyTo (some 7) 20480 555 8192]) ∧
    GDRHandle.copy_from_mapping mockOk hMapped 666 8192
      = (.error (.GDRError 1 "Failed to copy from mapping (error code: 1)"),
         [.copyFrom (some 7) 666 20480 8192]) :=
  ⟨(copy_requires_mapping mockOk hPinned 555 666 8192).1 (by decide),
   (copy_requires_mapping mockOk hMapped 555 666 8192).2.1 20480 1
     (by decide) (by decide) (by decide) (by decide) (by decide),
   (copy_requires_mapping mockOk hMapped 555 666 8192).2.2 20480 1
     (by decide) (by decide) (by decide) (by decide) (by decide)⟩

/-- C6: `open` on an already-open context fails with the opened-twice
condition, leaving the stored driver context unchanged and making no
driver call; `open` on a closed context stores the pointer returned by
`gdr_open`, succeeding when it is non-NULL and raising
`GDRError(-1, ...)` when the driver open call fails (returns NULL). -/
theorem open_twice_rejected (drv : Driver) (s : GDRCopyState) :
    (ptrTruthy s.handle = true →
      GDRCopy.open_ drv s = (.error AlreadyOpenError, s, [])) ∧
    (ptrTruthy s.handle = false → drv.gdr_open ≠ 0 →
      GDRCopy.open_ drv s
        = (.ok (), { handle := some drv.gdr_open }, [.openCtx])) ∧
    (ptrTruthy s.handle = false → drv.gdr_open = 0 →
      GDRCopy.open_ drv s
        = (.error (.GDRError (-1) "Failed to open GDRCopy"),
           { handle := some 0 }, [.openCtx])) := by
  refine ⟨fun hs => ?_, fun hs ho => ?_, fun hs ho => ?_⟩
  · simp [GDRCopy.open_, hs, AlreadyOpenError]
  · simp [GDRCopy.open_, hs, ho]
  · simp [GDRCopy.open_, hs, ho]

/-- Witness for C6: a second `open` on the open context raises the
opened-twice condition; `open` on a fresh context succeeds under `mockOk`
(pointer 1) and raises `GDRError(-1, ...)` under `mockFail` (NULL). -/
theorem open_twice_rejected_witness :
    GDRCopy.open_ mockOk ctxOpen = (.error AlreadyOpenError, ctxOpen, []) ∧
    GDRCopy.open_ mockOk GDRCopy.init
      = (.ok (), { handle := some mockOk.gdr_open }, [.openCtx]) ∧
    GDRCopy.open_ mockFail GDRCopy.init
      = (.error (.GDRError (-1) "Failed to open GDRCopy"),
         { handle := some 0 }, [.openCtx]) :=
  ⟨(open_twice_rejected mockOk ctxOpen).1 (by decide),
   (open_twice_rejected mockOk GDRCopy.init).2.1 (by decide) (by decide),
   (open_twice_rejected mockFail GDRCopy.init).2.2 (by decide) (by decide)⟩

/-- C7: `close` on an already-closed context is a silent no-op (no driver
call); the second of two `close` calls in a row is always a silent no-op;
when the context is open and the driver close call fails, `close` raises
`GDRError` but `_handle` is cleared first, so the context is closed
afterward and a retry makes no driver call. -/
theorem close_idempotent_failsafe (drv : Driver) (s : GDRCopyState) :
    (ptrTruthy s.handle = false →
      GDRCopy.close drv s = (.ok (), s, [])) ∧
    (GDRCopy.close drv (GDRCopy.close drv s).2.1
      = (.ok (), (GDRCopy.close drv s).2.1, [])) ∧
    (∀ ret : Int, ptrTruthy s.handle = true →
      drv.gdr_close s.handle = ret → ret ≠ 0 →
      GDRCopy.close drv s
        = (.error (.GDRError ret
             ("Failed to close GDRCopy (error code: " ++ toString ret ++ ")")),
           { handle := none }, [.closeCtx s.handle])) := by
  refine ⟨fun hs => by simp [GDRCopy.close, hs], ?_, ?_⟩
  · cases hs : ptrTruthy s.handle with
    | false => simp [GDRCopy.close, hs]
    | true =>
        have h1 : (GDRCopy.close drv s).2.1 = { handle := none } := by
          simp [GDRCopy.close, hs]
        rw [h1]
        simp [GDRCopy.close, ptrTruthy]
  · intro ret hs hd hne
    simp [GDRCopy.close, hs, hd, check_error, hne]

/-- Witness for C7: no-op on the fresh closed context; the second of two
closes of the open context is a silent no-op; under `mockFail` (close
status 5) the close of the open context raises `GDRError` with `_handle`
cleared. -/
theorem close_idempotent_failsafe_witness :
    GDRCopy.close mockFail GDRCopy.init = (.ok (), GDRCopy.init, []) ∧
    GDRCopy.close mockFail (GDRCopy.close mockFail ctxOpen).2.1
      = (.ok (), (GDRCopy.close mockFail ctxOpen).2.1, []) ∧
    GDRCopy.close mockFail ctxOpen
      = (.error (.GDRError 5 "Failed to close GDRCopy (error code: 5)"),
         { handle := none }, [.closeCtx (some 1)]) :=
  ⟨(close_idempotent_failsafe mockFail GDRCopy.init).1 (by decide),
   (close_idempotent_failsafe mockFail ctxOpen).2.1,
   (close_idempotent_failsafe mockFail ctxOpen).2.2 5
     (by decide) (by decide) (by decide)⟩

/-- C8 counterexample: `get_driver_version` called with a closed context
(`_handle = None`) does invoke the driver call (non-empty call list, the
context passed as NULL) and does not raise the used-while-closed
condition — under `mockOk` it even succeeds, returning `(2, 4)`. -/
theorem get_driver_version_no_open_check_cex :
    (get_driver_version mockOk GDRCopy.init).2 = [.driverGetVersion none] ∧
    (get_driver_version mockOk GDRCopy.init).1 = .ok (2, 4) ∧
    (get_driver_version mockOk GDRCopy.init).1 ≠ .error NotOpenError := by
  refine ⟨rfl, rfl, fun hc => Except.noConfusion hc⟩

/-- C8 amended: on a closed context, `pin_buffer`, `pin_buffer_v2` and
`get_attribute` fail with the used-while-closed condition
(`RuntimeError("GDRCopy is not open")`) without invoking any driver call;
`get_driver_version`, however, performs no open-context check: it always
invokes the driver call, passing the closed context's handle (NULL), and
surfaces a driver failure as `GDRError` rather than the used-while-closed
condition. -/
theorem closed_context_rejected_amended (drv : Driver) (s : GDRCopyState)
    (addr size p2p_token va_space flags attr : Nat) :
    ptrTruthy s.handle = false →
    GDRCopy.pin_buffer drv s addr size p2p_token va_space
        = (.error NotOpenError, []) ∧
    GDRCopy.pin_buffer_v2 drv s addr size flags = (.error NotOpenError, []) ∧
    GDRCopy.get_attribute drv s attr = (.error NotOpenError, []) ∧
    (get_driver_version drv s).2 = [.driverGetVersion s.handle] ∧
    (∀ (ret major minor : Int),
      drv.gdr_driver_get_version s.handle = (ret, major, minor) → ret ≠ 0 →
      get_driver_version drv s
        = (.error (.GDRError ret
             ("Failed to get driver version (error code: " ++ toString ret ++ ")")),
           [.driverGetVersion s.handle])) := by
  intro hs
  refine ⟨?_, ?_, ?_, rfl, ?_⟩
  · simp [GDRCopy.pin_buffer, hs, NotOpenError]
  · simp [GDRCopy.pin_buffer_v2, hs, NotOpenError]
  · simp [GDRCopy.get_attribute, hs, NotOpenError]
  · intro ret major minor hd hne
    simp [get_driver_version, hd, check_error, hne]

/-- Witness for the amended C8, on the fresh closed context with the
all-failing driver (status 5): both pin variants and `get_attribute`
raise the used-while-closed condition with no driver call;
`get_driver_version` performs the driver call and raises `GDRError 5`. -/
theorem closed_context_rejected_amended_witness :
    GDRCopy.pin_buffer mockFail GDRCopy.init 4096 4096 0 0
        = (.error NotOpenError, []) ∧
    GDRCopy.pin_buffer_v2 mockFail GDRCopy.init 4096 4096 0
        = (.error NotOpenError, []) ∧
    GDRCopy.get_attribute mockFail GDRCopy.init 1 = (.error NotOpenError, []) ∧
    (get_driver_version mockFail GDRCopy.init).2 = [.driverGetVersion none] ∧
    get_driver_version mockFail GDRCopy.init
      = (.error (.GDRError 5 "Failed to get driver version (error code: 5)"),
         [.driverGetVersion none]) := by
  have h := closed_context_rejected_amended mockFail GDRCopy.init
    4096 4096 0 0 0 1 (by decide)
  exact ⟨h.1, h.2.1, h.2.2.1, h.2.2.2.1, h.2.2.2.2 5 0 0 (by decide) (by decide)⟩

/-- C9 counterexample: destructor-time cleanup does not swallow driver
errors at the hook-body level: with a driver whose `gdr_unmap` fails
(status 3), `GDRHandle.__del__` on a mapped, pinned handle raises
`GDRError` out of the hook body, and the `unpin` step is skipped — the
pin token is still set and no `gdr_unpin_buffer` call appears in the
trace. -/
theorem del_propagates_unmap_failure_cex :
    GDRHandle.del_ mockUnmapFail ctxOpen hMapped
      = (.error (.GDRError 3 "Failed to unmap buffer (error code: 3)"),
         { handle := some 7, mapped_ptr := none, mapped_size := 0, info := none },
         [.unmapBuf (some 1) (some 7) 20480 4096]) := by
  rfl

/-- C9 amended: `GDRHandle.__del__` unmaps then unpins defensively when
the driver calls succeed, raising nothing; but the hook body contains no
exception handler, so when the driver unmap call fails it raises
`GDRError` out of the body (suppressed only at the Python runtime's
garbage-collection boundary), the pin token is left set and `unpin` is
never invoked; likewise `GDRCopy.__del__` raises `GDRError` out of the
body when the driver close call fails. -/
theorem del_teardown_amended (drv : Driver) (gdr : GDRCopyState)
    (h : GDRHandleState) (s : GDRCopyState) :
    (∀ (v tok : Nat), h.mapped_ptr = some v → v ≠ 0 → h.handle = some tok →
      drv.gdr_unmap gdr.handle (some tok) v h.mapped_size = 0 →
      drv.gdr_unpin_buffer gdr.handle (some tok) = 0 →
      GDRHandle.del_ drv gdr h
        = (.ok (),
           { h with handle := none, mapped_ptr := none, mapped_size := 0 },
           [.unmapBuf gdr.handle (some tok) v h.mapped_size,
            .unpinBuffer gdr.handle (some tok)])) ∧
    (∀ (v : Nat) (ret : Int), h.mapped_ptr = some v → v ≠ 0 →
      drv.gdr_unmap gdr.handle h.handle v h.mapped_size = ret → ret ≠ 0 →
      GDRHandle.del_ drv gdr h
        = (.error (.GDRError ret
             ("Failed to unmap buffer (error code: " ++ toString ret ++ ")")),
           { h with mapped_ptr := none, mapped_size := 0 },
           [.unmapBuf gdr.handle h.handle v h.mapped_size])) ∧
    (∀ ret : Int, ptrTruthy s.handle = true →
      drv.gdr_close s.handle = ret → ret ≠ 0 →
      GDRCopy.del_ drv s
        = (.error (.GDRError ret
             ("Failed to close GDRCopy (error code: " ++ toString ret ++ ")")),
           { handle := none }, [.closeCtx s.handle])) := by
  refine ⟨?_, ?_, ?_⟩
  · intro v tok hv hv0 hh hdu hdp
    simp [GDRHandle.del_, GDRHandle.unmap, GDRHandle.unpin, ptrTruthy,
      hv, hv0, hh, hdu, hdp, check_error]
  · intro v ret hv hv0 hd hne
    simp [GDRHandle.del_, GDRHandle.unmap, ptrTruthy, hv, hv0, hd,
      check_error, hne]
  · intro ret hs hd hne
    simp [GDRCopy.del_, GDRCopy.close, hs, hd, check_error, hne]

/-- Witness for the amended C9: with the all-succeeding driver, `__del__`
on the mapped pinned handle unmaps then unpins without raising; with the
unmap-failing driver it raises `GDRError 3` and skips `unpin`; with the
all-failing driver, `GDRCopy.__del__` on the open context raises
`GDRError 5`. -/
theorem del_teardown_amended_witness :
    GDRHandle.del_ mockOk ctxOpen hMapped
      = (.ok (),
         { hMapped with handle := none, mapped_ptr := none, mapped_size := 0 },
         [.unmapBuf ctxOpen.handle (some 7) 20480 4096,
          .unpinBuffer ctxOpen.handle (some 7)]) ∧
    GDRHandle.del_ mockUnmapFail ctxOpen hMapped
      = (.error (.GDRError 3 "Failed to unmap buffer (error code: 3)"),
         { hMapped with mapped_ptr := none, mapped_size := 0 },
         [.unmapBuf ctxOpen.handle hMapped.handle 20480 4096]) ∧
    GDRCopy.del_ mockFail ctxOpen
      = (.error (.GDRError 5 "Failed to close GDRCopy (error code: 5)"),
         { handle := none }, [.closeCtx ctxOpen.handle]) :=
  ⟨(del_teardown_amended mockOk ctxOpen hMapped ctxOpen).1 20480 7
     (by decide) (by decide) (by decide) (by decide) (by decide),
   (del_teardown_amended mockUnmapFail ctxOpen hMapped ctxOpen).2.1 20480 3
     (by decide) (by decide) (by decide) (by decide),
   (del_teardown_amended mockFail ctxOpen hMapped ctxOpen).2.2 5
     (by decide) (by decide) (by decide)⟩

/-- C10: when `gdr_map` fails (non-zero status) on an unmapped handle,
`map` raises `GDRError` and the returned state is exactly the input state
(the mapping record is untouched), and a subsequent `map` on that state
under a driver whose map call succeeds is accepted and records the
mapping, rather than being rejected with the already-mapped condition. -/
theorem map_failure_atomic (drv drv2 : Driver) (gdr : GDRCopyState)
    (h : GDRHandleState) (size size2 : Nat) :
    (∀ (ret : Int) (va : Nat), ptrTruthy h.mapped_ptr = false →
      drv.gdr_map gdr.handle h.handle size = (ret, va) → ret ≠ 0 →
      GDRHandle.map drv gdr h size
        = (.error (.GDRError ret
             ("Failed to map buffer (error code: " ++ toString ret ++ ")")),
           h, [.mapBuf gdr.handle h.handle size])) ∧
    (∀ (ret : Int) (va va2 : Nat), ptrTruthy h.mapped_ptr = false →
      drv.gdr_map gdr.handle h.handle size = (ret, va) → ret ≠ 0 →
      drv2.gdr_map gdr.handle h.handle size2 = (0, va2) →
      GDRHandle.map drv2 gdr (GDRHandle.map drv gdr h size).2.1 size2
        = (.ok va2, { h with mapped_ptr := some va2, mapped_size := size2 },
           [.mapBuf gdr.handle h.handle size2])) := by
  constructor
  · intro ret va hm hd hne
    simp [GDRHandle.map, hm, hd, hne]
  · intro ret va va2 hm hd hne hd2
    have h1 : (GDRHandle.map drv gdr h size).2.1 = h := by
      simp [GDRHandle.map, hm, hd, hne]
    rw [h1]
    simp [GDRHandle.map, hm, hd2]

/-- Witness for C10: under the map-failing driver (status 2), `map(4096)`
on the fresh pinned handle raises `GDRError 2` leaving the state intact,
and retrying on the resulting state under `mockOk` succeeds with address
20480. -/
theorem map_failure_atomic_witness :
    GDRHandle.map mockMapFail ctxOpen hPinned 4096
      = (.error (.GDRError 2 "Failed to map buffer (error code: 2)"),
         hPinned, [.mapBuf ctxOpen.handle hPinned.handle 4096]) ∧
    GDRHandle.map mockOk ctxOpen
        (GDRHandle.map mockMapFail ctxOpen hPinned 4096).2.1 4096
      = (.ok 20480,
         { hPinned with mapped_ptr := some 20480, mapped_size := 4096 },
         [.mapBuf ctxOpen.handle hPinned.handle 4096]) :=
  ⟨(map_failure_atomic mockMapFail mockOk ctxOpen hPinned 4096 4096).1 2 0
     (by decide) (by decide) (by decide),
   (map_failure_atomic mockMapFail mockOk ctxOpen hPinned 4096 4096).2 2 0 20480
     (by decide) (by decide) (by decide) (by decide)⟩
